import Mathlib

/-!
Verification of the SCT stock-dashboard script (src/SCT.py).

The script is a linear pipeline: read the ticker and indicator selection,
fetch the OHLCV frame, validate the closing-price column, compute indicator
series, and render a sequence of display sections (chart, panels, metrics,
fundamental ratios, insight sentences, news sentiment, raw data).

The embedding below models:
  * the pure classifiers of the script (RSI insight at lines 158-165,
    MACD insight at lines 167-175, news-sentiment thresholds at 185-190,
    fundamentals formatting at 145-154) as Lean functions on rationals;
  * the indicator mathematics that the script delegates to the external
    `ta` library, modelled from the spec's formulas (SMA window mean,
    Wilder-smoothed RSI);
  * the whole script as `runScript`, a function from the widget state and
    the external collaborators (data provider, indicator library,
    fundamentals provider, news provider, sentiment scorer) to the list
    of display sections it emits, with early termination for `st.stop`
    and for uncaught exceptions.  Hand-tracing the source shows that the
    coerced `close_col` of line 65 is a numpy ndarray (`pd.to_numeric`
    returns a Series only when given a Series), so the
    `close_col.isnull()` call at line 69 raises an uncaught
    AttributeError on every run whose frame has a Close column; the
    classifier and indicator components above are therefore specified and
    verified componentwise, and `runScript` reflects that no run proceeds
    past line 69.

Rationals stand for Python floats; `Option ℚ` cells stand for float
columns whose missing entries are NaN.
-/

namespace SCT

/-- Label emitted by the RSI insight block (lines 158-165 of SCT.py):
overbought / oversold / neutral. -/
inductive RSILabel
  | overbought
  | oversold
  | neutral
deriving DecidableEq, Repr

/-- Label emitted by the MACD insight block (lines 167-175):
bullish / bearish / neutral. -/
inductive MACDLabel
  | bullish
  | bearish
  | neutral
deriving DecidableEq, Repr

/-- Label emitted per headline by the news block (lines 185-190). -/
inductive SentLabel
  | positive
  | negative
  | neutral
deriving DecidableEq, Repr

/-- Lines 160-165: `if latest_rsi > 70 ... elif latest_rsi < 30 ... else`. -/
def rsiInsight (v : ℚ) : RSILabel :=
  if v > 70 then .overbought
  else if v < 30 then .oversold
  else .neutral

/-- Lines 170-175: `if macd_curr > signal_curr ... elif macd_curr < signal_curr ... else`. -/
def macdInsight (m s : ℚ) : MACDLabel :=
  if m > s then .bullish
  else if m < s then .bearish
  else .neutral

/-- Lines 185-190: `if sentiment > 0.1 ... elif sentiment < -0.1 ... else`. -/
def classifySentiment (p : ℚ) : SentLabel :=
  if p > 1/10 then .positive
  else if p < -(1/10) then .negative
  else .neutral

/-- The MACD label is a function of the difference `macd - signal` alone. -/
lemma macdInsight_sub (m s : ℚ) : macdInsight m s = macdInsight (m - s) 0 := by
  unfold macdInsight
  rcases lt_trichotomy m s with h | h | h
  · rw [if_neg (not_lt.mpr (le_of_lt h)), if_pos h,
      if_neg (not_lt.mpr (by linarith : m - s ≤ 0)), if_pos (by linarith : m - s < 0)]
  · subst h
    simp
  · rw [if_pos h, if_pos (sub_pos.mpr h)]

/-- C1: for every defined latest RSI value v the insight block produces
exactly one label, Overbought iff v > 70, Oversold iff v < 30, and Neutral
iff 30 ≤ v ≤ 70; in particular the boundary values 70 and 30 both yield
Neutral. -/
theorem c1_rsi_labels :
    (∀ v : ℚ,
      (rsiInsight v = .overbought ↔ 70 < v) ∧
      (rsiInsight v = .oversold ↔ v < 30) ∧
      (rsiInsight v = .neutral ↔ 30 ≤ v ∧ v ≤ 70)) ∧
    rsiInsight 70 = .neutral ∧ rsiInsight 30 = .neutral := by
  refine ⟨fun v => ?_, by decide, by decide⟩
  unfold rsiInsight
  split_ifs with h1 h2
  · exact ⟨⟨fun _ => h1, fun _ => rfl⟩,
      ⟨fun h => absurd h (by decide), fun h => absurd h1 (by linarith)⟩,
      ⟨fun h => absurd h (by decide), fun h => absurd h1 (by linarith [h.2])⟩⟩
  · exact ⟨⟨fun h => absurd h (by decide), fun h => absurd h h1⟩,
      ⟨fun _ => h2, fun _ => rfl⟩,
      ⟨fun h => absurd h (by decide), fun h => absurd h2 (by linarith [h.1])⟩⟩
  · exact ⟨⟨fun h => absurd h (by decide), fun h => absurd h h1⟩,
      ⟨fun h => absurd h (by decide), fun h => absurd h h2⟩,
      ⟨fun _ => ⟨not_lt.mp h2, not_lt.mp h1⟩, fun _ => rfl⟩⟩

/-- C2: for every pair of defined latest values, the MACD insight block
labels Bullish iff macd > signal, Bearish iff macd < signal, Neutral iff
they are equal, and the label depends only on the difference macd - signal
(so its sign fully determines the label). -/
theorem c2_macd_labels :
    ∀ m s : ℚ,
      (macdInsight m s = .bullish ↔ s < m) ∧
      (macdInsight m s = .bearish ↔ m < s) ∧
      (macdInsight m s = .neutral ↔ m = s) ∧
      macdInsight m s = macdInsight (m - s) 0 := by
  intro m s
  refine ⟨?_, ?_, ?_, macdInsight_sub m s⟩ <;> unfold macdInsight <;> split_ifs with h1 h2
  · exact ⟨fun _ => h1, fun _ => rfl⟩
  · exact ⟨fun h => absurd h (by decide), fun h => absurd h h1⟩
  · exact ⟨fun h => absurd h (by decide), fun h => absurd h h1⟩
  · exact ⟨fun h => absurd h (by decide), fun h => absurd h1 (by linarith)⟩
  · exact ⟨fun _ => h2, fun _ => rfl⟩
  · exact ⟨fun h => absurd h (by decide), fun h => absurd h h2⟩
  · exact ⟨fun h => absurd h (by decide), fun h => absurd h1 (by rw [h]; exact lt_irrefl s)⟩
  · exact ⟨fun h => absurd h (by decide), fun h => absurd h2 (by rw [h]; exact lt_irrefl s)⟩
  · exact ⟨fun _ => le_antisymm (not_lt.mp h1) (not_lt.mp h2), fun _ => rfl⟩

/-- C8: each headline's polarity p is classified Positive iff p > 0.1,
Negative iff p < -0.1, Neutral otherwise; in particular the polarities
0.5, -0.5, 0.05, 0.1, -0.1 classify as Positive, Negative, Neutral,
Neutral, Neutral. -/
theorem c8_sentiment_labels :
    (∀ p : ℚ,
      (classifySentiment p = .positive ↔ 1/10 < p) ∧
      (classifySentiment p = .negative ↔ p < -(1/10)) ∧
      (classifySentiment p = .neutral ↔ -(1/10) ≤ p ∧ p ≤ 1/10)) ∧
    [(1/2 : ℚ), -(1/2), 1/20, 1/10, -(1/10)].map classifySentiment
      = [.positive, .negative, .neutral, .neutral, .neutral] := by
  refine ⟨fun p => ?_, by norm_num [classifySentiment]⟩
  unfold classifySentiment
  split_ifs with h1 h2
  · exact ⟨⟨fun _ => h1, fun _ => rfl⟩,
      ⟨fun h => absurd h (by decide), fun h => absurd h1 (by linarith)⟩,
      ⟨fun h => absurd h (by decide), fun h => absurd h1 (by linarith [h.2])⟩⟩
  · exact ⟨⟨fun h => absurd h (by decide), fun h => absurd h h1⟩,
      ⟨fun _ => h2, fun _ => rfl⟩,
      ⟨fun h => absurd h (by decide), fun h => absurd h2 (by linarith [h.1])⟩⟩
  · exact ⟨⟨fun h => absurd h (by decide), fun h => absurd h h1⟩,
      ⟨fun h => absurd h (by decide), fun h => absurd h h2⟩,
      ⟨fun _ => ⟨not_lt.mp h2, not_lt.mp h1⟩, fun _ => rfl⟩⟩

/-- Modelled from the spec: the script delegates SMA to the external call
`ta.trend.sma_indicator(close=close_col, window=20)` (line 75), whose code is
not part of this repository.  Per the spec, SMA-w(t) is the arithmetic mean
of the trailing w closes, undefined (absent) until a full window of history
has accumulated: defined when w ≤ t+1, absent otherwise. -/
def sma_indicator (closes : List ℚ) (window : ℕ) : List (Option ℚ) :=
  (List.range closes.length).map fun t =>
    if window ≤ t + 1 then
      some ((((closes.take (t + 1)).drop (t + 1 - window)).sum) / (window : ℚ))
    else none

lemma take_sum_eq (xs : List ℚ) :
    ∀ b : ℕ, (xs.take b).sum = ∑ i in Finset.range b, xs.getD i 0 := by
  induction xs with
  | nil => intro b; simp
  | cons x xs ih =>
    intro b
    cases b with
    | zero => simp
    | succ n =>
      rw [List.take_succ_cons, List.sum_cons, Finset.sum_range_succ']
      simp only [List.getD_cons_succ, List.getD_cons_zero]
      rw [ih n, add_comm]

lemma drop_take_sum_eq (xs : List ℚ) (a b : ℕ) (hab : a ≤ b) :
    ((xs.take b).drop a).sum = ∑ i in Finset.Ico a b, xs.getD i 0 := by
  have h2 : (xs.take b).take a = xs.take a := by rw [List.take_take, min_eq_left hab]
  have h3 : (xs.take b).sum = (xs.take a).sum + ((xs.take b).drop a).sum := by
    conv_lhs => rw [← List.take_append_drop a (xs.take b)]
    rw [List.sum_append, h2]
  rw [Finset.sum_Ico_eq_sub _ hab, ← take_sum_eq, ← take_sum_eq]
  linarith

/-- C5: for any closing-price sequence of length at least 20, the SMA20
series is absent at every index t < 19 and equals the arithmetic mean of
close[t-19..t] at every index 19 ≤ t < length. -/
theorem c5_sma20 (closes : List ℚ) (t : ℕ) (hlen : 20 ≤ closes.length)
    (ht : t < closes.length) :
    (t < 19 → (sma_indicator closes 20)[t]? = some none) ∧
    (19 ≤ t → (sma_indicator closes 20)[t]?
        = some (some ((∑ i in Finset.Icc (t - 19) t, closes.getD i 0) / 20))) := by
  have hget : (sma_indicator closes 20)[t]?
      = some (if 20 ≤ t + 1 then
          some ((((closes.take (t + 1)).drop (t + 1 - 20)).sum) / ((20 : ℕ) : ℚ)) else none) := by
    unfold sma_indicator
    rw [List.getElem?_map, List.getElem?_range ht]
    rfl
  constructor
  · intro h19
    rw [hget, if_neg (by omega)]
  · intro h19
    rw [hget, if_pos (by omega)]
    have he : t + 1 - 20 = t - 19 := by omega
    have hico : Finset.Icc (t - 19) t = Finset.Ico (t - 19) (t + 1) := (Nat.Ico_succ_right _ _).symm
    rw [he, hico, ← drop_take_sum_eq closes (t - 19) (t + 1) (by omega)]
    norm_num

/-- The 20 ascending closes 11..30 of the spec's end-to-end scenario. -/
def c5closes : List ℚ :=
  [11, 12, 13, 14, 15, 16, 17, 18, 19, 20, 21, 22, 23, 24, 25, 26, 27, 28, 29, 30]

/-- Witness for C5 at the concrete closes 11..30: the last SMA20 value is
defined and the trailing mean evaluates to 20.5. -/
theorem c5_sma20_witness :
    (sma_indicator c5closes 20)[19]?
      = some (some ((∑ i in Finset.Icc (19 - 19) 19, c5closes.getD i 0) / 20)) ∧
    (∑ i in Finset.Icc (19 - 19) 19, c5closes.getD i 0) / 20 = 41 / 2 := by
  constructor
  · exact (c5_sma20 c5closes 19 (by norm_num [c5closes]) (by norm_num [c5closes])).2 (by norm_num)
  · rw [show Finset.Icc (19 - 19) 19 = Finset.range 20 by rfl]
    simp only [Finset.sum_range_succ, Finset.sum_range_zero]
    norm_num [c5closes]

/-- Modelled from the spec: the recursive exponential (Wilder) smoothing
used by the RSI computation that the script delegates to
`ta.momentum.rsi(close=close_col, window=14)` (line 81).  The accumulator
starts at the first observation and each later output is
(1-α) * previous + α * current. -/
def wilder (α : ℚ) : ℚ → List ℚ → List ℚ
  | a, [] => [a]
  | a, x :: xs => a :: wilder α ((1 - α) * a + α * x) xs

/-- Modelled from the spec: exponentially weighted mean of a series, seeded
by its first element (empty for the empty series). -/
def ewm_mean (α : ℚ) : List ℚ → List ℚ
  | [] => []
  | x :: xs => wilder α x xs

/-- Modelled from the spec: per-period gains of the close series, clipped at
zero; the first period has no predecessor and contributes 0. -/
def gainsFrom : ℚ → List ℚ → List ℚ
  | _, [] => []
  | prev, c :: cs => max (c - prev) 0 :: gainsFrom c cs

def gains : List ℚ → List ℚ
  | [] => []
  | c :: cs => 0 :: gainsFrom c cs

/-- Modelled from the spec: per-period losses of the close series, clipped
at zero; the first period has no predecessor and contributes 0. -/
def lossesFrom : ℚ → List ℚ → List ℚ
  | _, [] => []
  | prev, c :: cs => max (prev - c) 0 :: lossesFrom c cs

def losses : List ℚ → List ℚ
  | [] => []
  | c :: cs => 0 :: lossesFrom c cs

/-- Wilder-smoothed average gain at index t (0 when out of range). -/
def avgGain (closes : List ℚ) (window t : ℕ) : ℚ :=
  (ewm_mean ((window : ℚ))⁻¹ (gains closes)).getD t 0

/-- Wilder-smoothed average loss at index t (0 when out of range). -/
def avgLoss (closes : List ℚ) (window t : ℕ) : ℚ :=
  (ewm_mean ((window : ℚ))⁻¹ (losses closes)).getD t 0

/-- Modelled from the spec: RSI(t) = 100 - 100/(1+RS) with RS the ratio of
the Wilder-smoothed average gain to average loss, undefined until a full
window of history has accumulated.  When the average loss is zero RS
diverges and the value saturates at 100 (undefined when the average gain is
zero as well, since RS is then indeterminate). -/
def rsi (closes : List ℚ) (window t : ℕ) : Option ℚ :=
  if t < closes.length ∧ window ≤ t + 1 then
    if avgLoss closes window t = 0 then
      (if avgGain closes window t = 0 then none else some 100)
    else some (100 - 100 / (1 + avgGain closes window t / avgLoss closes window t))
  else none

lemma wilder_nonneg {α : ℚ} (hα0 : 0 ≤ α) (hα1 : α ≤ 1) :
    ∀ {a : ℚ} {xs : List ℚ}, 0 ≤ a → (∀ x ∈ xs, 0 ≤ x) → ∀ y ∈ wilder α a xs, 0 ≤ y := by
  intro a xs
  induction xs generalizing a with
  | nil =>
    intro ha _ y hy
    simp only [wilder, List.mem_singleton] at hy
    subst hy; exact ha
  | cons x xs ih =>
    intro ha hxs y hy
    simp only [wilder, List.mem_cons] at hy
    rcases hy with rfl | hy'
    · exact ha
    · exact ih (add_nonneg (mul_nonneg (by linarith) ha)
          (mul_nonneg hα0 (hxs x (List.mem_cons_self _ _))))
        (fun z hz => hxs z (List.mem_cons_of_mem _ hz)) y hy'

lemma ewm_mean_nonneg {α : ℚ} {xs : List ℚ} (hα0 : 0 ≤ α) (hα1 : α ≤ 1)
    (hxs : ∀ x ∈ xs, 0 ≤ x) : ∀ y ∈ ewm_mean α xs, 0 ≤ y := by
  cases xs with
  | nil => simp [ewm_mean]
  | cons x xs =>
    exact fun y hy => wilder_nonneg hα0 hα1 (hxs x (List.mem_cons_self _ _))
      (fun z hz => hxs z (List.mem_cons_of_mem _ hz)) y (by simpa [ewm_mean] using hy)

lemma gainsFrom_nonneg : ∀ (p : ℚ) (l : List ℚ), ∀ y ∈ gainsFrom p l, 0 ≤ y := by
  intro p l
  induction l generalizing p with
  | nil => simp [gainsFrom]
  | cons c cs ih =>
    intro y hy
    simp only [gainsFrom, List.mem_cons] at hy
    rcases hy with rfl | hy
    · exact le_max_right _ _
    · exact ih c y hy

lemma gains_nonneg (closes : List ℚ) : ∀ y ∈ gains closes, 0 ≤ y := by
  cases closes with
  | nil => simp [gains]
  | cons c cs =>
    intro y hy
    simp only [gains, List.mem_cons] at hy
    rcases hy with rfl | hy
    · exact le_refl 0
    · exact gainsFrom_nonneg c cs y hy

lemma lossesFrom_nonneg : ∀ (p : ℚ) (l : List ℚ), ∀ y ∈ lossesFrom p l, 0 ≤ y := by
  intro p l
  induction l generalizing p with
  | nil => simp [lossesFrom]
  | cons c cs ih =>
    intro y hy
    simp only [lossesFrom, List.mem_cons] at hy
    rcases hy with rfl | hy
    · exact le_max_right _ _
    · exact ih c y hy

lemma losses_nonneg (closes : List ℚ) : ∀ y ∈ losses closes, 0 ≤ y := by
  cases closes with
  | nil => simp [losses]
  | cons c cs =>
    intro y hy
    simp only [losses, List.mem_cons] at hy
    rcases hy with rfl | hy
    · exact le_refl 0
    · exact lossesFrom_nonneg c cs y hy

lemma getD_nonneg {l : List ℚ} (h : ∀ y ∈ l, 0 ≤ y) (t : ℕ) : 0 ≤ l.getD t 0 := by
  rcases he : l[t]? with _ | y
  · simp [List.getD_eq_getElem?_getD, he]
  · have hmem : y ∈ l := List.getElem?_mem he
    have := h y hmem
    simp only [List.getD_eq_getElem?_getD, he, Option.getD_some]
    exact this

lemma natInv_nonneg (w : ℕ) : 0 ≤ ((w : ℚ))⁻¹ := by positivity

lemma natInv_le_one (w : ℕ) : ((w : ℚ))⁻¹ ≤ 1 := by
  rcases Nat.eq_zero_or_pos w with h | h
  · simp [h]
  · exact inv_le_one_of_one_le₀ (by exact_mod_cast h)

lemma avgGain_nonneg (closes : List ℚ) (w t : ℕ) : 0 ≤ avgGain closes w t :=
  getD_nonneg (ewm_mean_nonneg (natInv_nonneg w) (natInv_le_one w) (gains_nonneg closes)) t

lemma avgLoss_nonneg (closes : List ℚ) (w t : ℕ) : 0 ≤ avgLoss closes w t :=
  getD_nonneg (ewm_mean_nonneg (natInv_nonneg w) (natInv_le_one w) (losses_nonneg closes)) t

/-- C6: every defined RSI14 value lies in the closed interval [0, 100]. -/
theorem c6_rsi_range (closes : List ℚ) (t : ℕ) (v : ℚ)
    (h : rsi closes 14 t = some v) : 0 ≤ v ∧ v ≤ 100 := by
  unfold rsi at h
  by_cases h1 : t < closes.length ∧ 14 ≤ t + 1
  · rw [if_pos h1] at h
    by_cases h2 : avgLoss closes 14 t = 0
    · rw [if_pos h2] at h
      by_cases h3 : avgGain closes 14 t = 0
      · rw [if_pos h3] at h
        exact absurd h (by simp)
      · rw [if_neg h3] at h
        injection h with h'
        subst h'
        norm_num
    · rw [if_neg h2] at h
      injection h with h'
      have hag : 0 ≤ avgGain closes 14 t := avgGain_nonneg closes 14 t
      have hal : 0 ≤ avgLoss closes 14 t := avgLoss_nonneg closes 14 t
      have halpos : 0 < avgLoss closes 14 t := lt_of_le_of_ne hal (Ne.symm h2)
      have hrs : 0 ≤ avgGain closes 14 t / avgLoss closes 14 t := div_nonneg hag hal
      have hq0 : 0 ≤ 100 / (1 + avgGain closes 14 t / avgLoss closes 14 t) :=
        div_nonneg (by norm_num) (by linarith)
      have hq1 : 100 / (1 + avgGain closes 14 t / avgLoss closes 14 t) ≤ 100 :=
        div_le_self (by norm_num) (by linarith)
      subst h'
      constructor <;> linarith
  · rw [if_neg h1] at h
    exact absurd h (by simp)

/-- Strictly increasing closes: no losses, so RSI saturates at 100. -/
def c6closes : List ℚ := [0, 1, 2, 3, 4, 5, 6, 7, 8, 9, 10, 11, 12, 13]

/-- Witness for C6 at strictly increasing closes: the first defined RSI14
value is exactly 100 and lies in [0, 100]. -/
theorem c6_rsi_range_witness :
    rsi c6closes 14 13 = some 100 ∧ 0 ≤ (100 : ℚ) ∧ (100 : ℚ) ≤ 100 := by
  have hAL : avgLoss c6closes 14 13 = 0 := by
    norm_num [avgLoss, c6closes, losses, lossesFrom, ewm_mean, wilder]
  have hAG : avgGain c6closes 14 13 ≠ 0 := by
    norm_num [avgGain, c6closes, gains, gainsFrom, ewm_mean, wilder]
  have hEval : rsi c6closes 14 13 = some 100 := by
    rw [rsi, if_pos (by norm_num [c6closes]), if_pos hAL, if_neg hAG]
  exact ⟨hEval, c6_rsi_range c6closes 13 100 hEval⟩

/-- The fundamentals snapshot fetched at line 143 (`ticker_obj.info`):
each of the six fields the script reads may be absent. -/
structure FundamentalsSnapshot where
  trailingPE : Option ℚ
  trailingEps : Option ℚ
  returnOnEquity : Option ℚ
  debtToEquity : Option ℚ
  priceToBook : Option ℚ
  marketCap : Option ℚ
deriving DecidableEq, Repr

/-- The text a metric widget displays.  `val v` is the plain rendering of
the numeric value, `pct v` the two-decimal percentage rendering of an
already-scaled value, `cur v` the thousands-separated dollar rendering,
and `na` the "N/A" placeholder (decimal formatting itself is presentation
and is not modelled beyond the choice of rendering kind). -/
inductive MetricText
  | val (v : ℚ)
  | pct (v : ℚ)
  | cur (v : ℚ)
  | na
deriving DecidableEq, Repr

/-- Lines 146-147 and 152-153: `info.get(key, 'N/A')` rendered through an
f-string: the value when present, the placeholder otherwise. -/
def fmtOptional : Option ℚ → MetricText
  | some v => .val v
  | none => .na

/-- Lines 148-149: `f"..." if roe else "N/A"` — Python truthiness makes
both a missing ROE and a zero ROE fall back to the placeholder, and a
present non-zero value renders as `roe * 100` percent. -/
def fmtROE : Option ℚ → MetricText
  | some v => if v = 0 then .na else .pct (v * 100)
  | none => .na

/-- Line 154: `info.get('marketCap', 0)` rendered as currency — an absent
market cap is treated as 0. -/
def fmtMarketCap (o : Option ℚ) : MetricText :=
  .cur (o.getD 0)

/-- The six formatted metrics of the fundamentals section (lines 145-154). -/
structure FundamentalsRender where
  pe : MetricText
  eps : MetricText
  roe : MetricText
  de : MetricText
  pb : MetricText
  mcap : MetricText
deriving DecidableEq, Repr

/-- Lines 145-154: the whole fundamentals display block. -/
def fundamentalsBlock (info : FundamentalsSnapshot) : FundamentalsRender :=
  { pe := fmtOptional info.trailingPE
    eps := fmtOptional info.trailingEps
    roe := fmtROE info.returnOnEquity
    de := fmtOptional info.debtToEquity
    pb := fmtOptional info.priceToBook
    mcap := fmtMarketCap info.marketCap }

/-- The empty provider mapping: every field absent. -/
def emptySnapshot : FundamentalsSnapshot :=
  ⟨none, none, none, none, none, none⟩

/-- C7: for every snapshot the summarizer totally produces all six fields:
P/E, EPS, Debt/Equity and P/B render the value when present and "N/A"
otherwise; ROE renders value*100 when present and non-zero and "N/A"
otherwise; Market Cap renders as currency with absence treated as 0; and on
the empty mapping all six outputs are the "N/A" / "$0" renderings. -/
theorem c7_fundamentals :
    ∀ info : FundamentalsSnapshot,
      (info.trailingPE = none → (fundamentalsBlock info).pe = .na) ∧
      (∀ v, info.trailingPE = some v → (fundamentalsBlock info).pe = .val v) ∧
      (info.trailingEps = none → (fundamentalsBlock info).eps = .na) ∧
      (∀ v, info.trailingEps = some v → (fundamentalsBlock info).eps = .val v) ∧
      (info.debtToEquity = none → (fundamentalsBlock info).de = .na) ∧
      (∀ v, info.debtToEquity = some v → (fundamentalsBlock info).de = .val v) ∧
      (info.priceToBook = none → (fundamentalsBlock info).pb = .na) ∧
      (∀ v, info.priceToBook = some v → (fundamentalsBlock info).pb = .val v) ∧
      (info.returnOnEquity = none → (fundamentalsBlock info).roe = .na) ∧
      (info.returnOnEquity = some 0 → (fundamentalsBlock info).roe = .na) ∧
      (∀ v, info.returnOnEquity = some v → v ≠ 0 →
        (fundamentalsBlock info).roe = .pct (v * 100)) ∧
      (info.marketCap = none → (fundamentalsBlock info).mcap = .cur 0) ∧
      (∀ v, info.marketCap = some v → (fundamentalsBlock info).mcap = .cur v) ∧
      fundamentalsBlock emptySnapshot = ⟨.na, .na, .na, .na, .na, .cur 0⟩ := by
  intro info
  refine ⟨fun h => ?_, fun v h => ?_, fun h => ?_, fun v h => ?_, fun h => ?_, fun v h => ?_,
    fun h => ?_, fun v h => ?_, fun h => ?_, fun h => ?_, fun v h hv => ?_,
    fun h => ?_, fun v h => ?_, rfl⟩ <;>
    simp [fundamentalsBlock, fmtOptional, fmtROE, fmtMarketCap, h]
  exact fun h0 => absurd h0 hv

/-- Witness for C7: the empty mapping renders P/E as "N/A" and Market Cap
as $0, and a snapshot holding ROE = 1/4 renders ROE as 25 percent. -/
theorem c7_fundamentals_witness :
    (fundamentalsBlock emptySnapshot).pe = MetricText.na ∧
    (fundamentalsBlock emptySnapshot).mcap = MetricText.cur 0 ∧
    (fundamentalsBlock ⟨some 5, none, some (1/4), none, none, some 1000⟩).roe
      = MetricText.pct ((1/4) * 100) :=
  ⟨(c7_fundamentals emptySnapshot).1 rfl,
   (c7_fundamentals emptySnapshot).2.2.2.2.2.2.2.2.2.2.2.1 rfl,
   (c7_fundamentals ⟨some 5, none, some (1/4), none, none, some 1000⟩).2.2.2.2.2.2.2.2.2.2.1
     (1/4) rfl (by norm_num)⟩

/-- A display element in the news block's vocabulary (lines 179-194). -/
inductive NewsEmit
  | classified (title : String) (l : SentLabel)
  | noNews
  | notAvailable
deriving DecidableEq, Repr

/-- A cell of a pandas object column: a numeric float, a float NaN, or the
Python `None` object (which, unlike NaN, raises a TypeError when ordered).
It types the output columns of the MACD library collaborator. -/
inductive PyCell
  | num (q : ℚ)
  | nan
  | pynone
deriving DecidableEq, Repr

/-- The provider frame as the script consumes it: whether a Close column is
present, and the closing values as line 65 coerces them
(`pd.to_numeric(..., errors='coerce')` turns a missing or non-numeric
value into NaN, here `none`). -/
structure ProviderResponse where
  hasClose : Bool
  closeRaw : List (Option ℚ)

/-- The external collaborators of the script: the market-data provider
(line 54), the ta indicator library (lines 75-87), the fundamentals
provider (line 143), the news provider (line 180) and the sentiment scorer
(line 184). -/
structure Externals where
  fetch : String → ProviderResponse
  rsiFn : List (Option ℚ) → List (Option ℚ)
  macdFn : List (Option ℚ) → Except String (List PyCell × List PyCell)
  info : FundamentalsSnapshot
  news : Except Unit (List String)
  score : String → Except Unit ℚ

/-- Python str.upper, stated on the logical character-list model of
String. -/
def pyUpper (s : String) : String := ⟨s.data.map Char.toUpper⟩

/-- Lines 29-33: the manual text input is uppercased, and a popular
selection other than "None" overrides it. -/
def effectiveTicker (popular manual : String) : String :=
  if popular ≠ "None" then popular else pyUpper manual

/-- A display section of the script, in source order.  Only the first
three are ever emitted: `attributeError` stands for the traceback
Streamlit shows when line 69 raises (see `runScript`); the remaining
constructors name the sections of lines 70-198 so that theorems can state
that they never render. -/
inductive Emit
  | warnEmptyTicker
  | errNoClose
  | attributeError
  | errInvalidClose
  | warnMACDError (msg : String)
  | chart
  | rsiPanel
  | macdPanel
  | metrics
  | fundamentalsE (r : FundamentalsRender)
  | rsiInsightE (l : RSILabel)
  | macdInsightE (l : MACDLabel)
  | newsE (items : List NewsEmit)
  | rawData
deriving DecidableEq, Repr

/-- The whole script (src/SCT.py) as a function from the sidebar state and
the external collaborators to the ordered list of sections it renders.
`st.stop` (lines 38, 62) and an uncaught exception cut the emission list
short.  Line 65 builds
`close_col = pd.to_numeric(data['Close'].values.flatten(), errors='coerce')`:
`.values.flatten()` is a numpy ndarray and `pd.to_numeric` returns a
Series only when given a Series — given an ndarray it returns an ndarray.
Line 69 then calls `close_col.isnull()`, a pandas Series method that an
ndarray does not have, so every run that passes the line-60 Close-column
check raises an uncaught AttributeError at line 69: the validation message
of lines 70-71 and everything from line 73 on (indicators, chart, panels,
metrics, fundamentals, insights, news, raw data) is dead code. -/
def runScript (popular manual : String) (inds : List String) (ext : Externals) : List Emit :=
  let ticker := effectiveTicker popular manual
  if ticker = "" then [.warnEmptyTicker]
  else if (ext.fetch ticker).hasClose then [.attributeError]
  else [.errNoClose]

/-- C10: whenever the effective ticker is empty (popular selection "None"
and no manual input), the script emits only the warning and stops — for
every choice of external collaborators, so no provider call, validation or
indicator computation can influence or follow it. -/
theorem c10_empty_ticker (popular manual : String) (inds : List String) (ext : Externals)
    (h : effectiveTicker popular manual = "") :
    runScript popular manual inds ext = [.warnEmptyTicker] := by
  simp [runScript, h]

/-- Externals whose provider has no Close column and whose other
collaborators all fail. -/
def noCloseExt : Externals :=
  { fetch := fun _ => ⟨false, []⟩
    rsiFn := fun c => c
    macdFn := fun _ => .error "boom"
    info := emptySnapshot
    news := .error ()
    score := fun _ => .error () }

/-- Witness for C10 at popular = "None", manual input empty. -/
theorem c10_empty_ticker_witness :
    runScript "None" "" ["SMA (20)", "RSI"] noCloseExt = [.warnEmptyTicker] :=
  c10_empty_ticker "None" "" ["SMA (20)", "RSI"] noCloseExt (by decide)

/-- C3 (evaluation at the failing input): with a non-empty ticker, a
response with no Close column stops with the designed missing-column
error, but whenever the Close column is present — in particular when
every value is non-numeric after coercion — the run dies at line 69 with
the uncaught AttributeError, for every choice of externals and indicator
selection, and the designed invalid-data error of lines 70-71 never
renders. -/
theorem c3_close_crash (popular manual : String) (inds : List String) (ext : Externals)
    (hticker : effectiveTicker popular manual ≠ "") :
    ((ext.fetch (effectiveTicker popular manual)).hasClose = false →
      runScript popular manual inds ext = [.errNoClose]) ∧
    ((ext.fetch (effectiveTicker popular manual)).hasClose = true →
      runScript popular manual inds ext = [.attributeError]) ∧
    Emit.errInvalidClose ∉ runScript popular manual inds ext := by
  refine ⟨fun h => by simp [runScript, hticker, h],
    fun h => by simp [runScript, hticker, h], ?_⟩
  by_cases hB : (ext.fetch (effectiveTicker popular manual)).hasClose
  · simp [runScript, hticker, hB]
  · simp [runScript, hticker, hB]

/-- Externals whose provider has a Close column whose values are all
non-numeric (coerced to NaN) — the claim's invalid-data input. -/
def badCloseExt : Externals :=
  { noCloseExt with fetch := fun _ => ⟨true, [none, none]⟩ }

/-- Witness for C3: the missing-column stop and the line-69 crash at a
concrete ticker and providers. -/
theorem c3_close_crash_witness :
    runScript "AAPL" "" ["SMA (20)", "RSI"] noCloseExt = [.errNoClose] ∧
    runScript "AAPL" "" ["SMA (20)", "RSI"] badCloseExt = [.attributeError] :=
  ⟨(c3_close_crash "AAPL" "" ["SMA (20)", "RSI"] noCloseExt (by decide)).1 rfl,
   (c3_close_crash "AAPL" "" ["SMA (20)", "RSI"] badCloseExt (by decide)).2.1 rfl⟩

/-- Externals for C4's failing input: a frame with a Close column, MACD
selected, and a MACD library call that would fail. -/
def macdFailExt : Externals :=
  { fetch := fun _ => ⟨true, [some 1, some 2]⟩
    rsiFn := fun c => c
    macdFn := fun _ => .error "insufficient data"
    info := emptySnapshot
    news := .ok ["headline"]
    score := fun _ => .ok 1 }

/-- C4 (evaluation at the failing input): with MACD selected, the run
never reaches the MACD try/except at line 83 — it dies at line 69 with
the AttributeError — so no MACD warning is surfaced and none of the other
sections (chart, news, ...) renders, contrary to the claimed containment. -/
theorem c4_macd_failure_eval :
    runScript "AAPL" "" ["MACD"] macdFailExt = [.attributeError] ∧
    (∀ m, Emit.warnMACDError m ∉ runScript "AAPL" "" ["MACD"] macdFailExt) ∧
    Emit.chart ∉ runScript "AAPL" "" ["MACD"] macdFailExt ∧
    ∀ items, Emit.newsE items ∉ runScript "AAPL" "" ["MACD"] macdFailExt := by
  have h : runScript "AAPL" "" ["MACD"] macdFailExt = [.attributeError] := rfl
  refine ⟨h, fun m => ?_, ?_, fun items => ?_⟩ <;> rw [h] <;> simp

/-- Externals that would exercise the news feature: the provider returns a
frame with a Close column, the news provider returns a headline, and the
scorer raises. -/
def newsFailExt : Externals :=
  { fetch := fun _ => ⟨true, [some 1]⟩
    rsiFn := fun c => c
    macdFn := fun _ => .error "boom"
    info := emptySnapshot
    news := .ok ["h"]
    score := fun _ => .error () }

/-- C9 (evaluation at the failing input): the news block of lines 178-194
is unreachable — no run, whatever the sidebar state and external
collaborators, ever emits a news section, and the concrete run that would
exercise a news failure has already halted at line 69 with the
AttributeError, so no "sentiment analysis not available" notice is ever
produced and the render halts for an unrelated reason. -/
theorem c9_news_unreachable :
    (∀ (popular manual : String) (inds : List String) (ext : Externals)
      (items : List NewsEmit), Emit.newsE items ∉ runScript popular manual inds ext) ∧
    runScript "AAPL" "" ["RSI"] newsFailExt = [.attributeError] := by
  constructor
  · intro popular manual inds ext items
    by_cases hA : effectiveTicker popular manual = ""
    · simp [runScript, hA]
    · by_cases hB : (ext.fetch (effectiveTicker popular manual)).hasClose
      · simp [runScript, hA, hB]
      · simp [runScript, hA, hB]
  · rfl

end SCT
